/-
Verification of the client-side playback-state synchronization engine of
mpris-over-http: the `MediaWidget` custom element (snapshot stream handler,
progress extrapolator, controller lifecycle) and its command surface.

The embedding models the current client source (`MediaWidget` class:
`connectedCallback`, `disconnectedCallback`, `get_updates`,
`launchUpdateTimer`).  JavaScript numbers are modelled as exact rationals
(ℚ) in the main model; a separate `JSNum` model below captures the IEEE-754
special values (±Infinity, NaN) for the division-by-zero analysis of the
anchor computation.  Times are in milliseconds (`performance.now()` units);
the source divides by 1000 where it converts to seconds, and the embedding
repeats that division literally.
-/
import Mathlib

/-- Models a JavaScript value that the widget stores in a string-or-null
field: `undefined`, `null`, or a string.  `art_url_hash` (initialised to
`null` in `connectedCallback`) and the payload's `art_url_hash` and `title`
fields have this type. -/
inductive JSStr where
  | undef : JSStr
  | jnull : JSStr
  | str : String → JSStr
deriving DecidableEq, Repr

/-- Conversion performed by `child_title.textContent = data.title`:
`textContent` is a nullable DOMString, so `undefined` converts to `null`,
and the setter treats `null` as the empty string — both `undefined` and
`null` clear the title; a string is itself.  (Template-literal
interpolation, as in the icon URL, stringifies `undefined` to "undefined"
instead; the refetch effect below therefore carries the raw `JSStr`.) -/
def JSStr.text : JSStr → String
  | .undef => ""
  | .jnull => ""
  | .str s => s

/-- The parsed JSON payload of an "update" event, as the handler reads it:
every field access may yield `undefined` (field absent), modelled with
`Option` / `JSStr.undef`.  `playback_rate = none` covers both an absent and
a `null` field (the two cases `?? 1` coalesces). -/
structure JSData where
  title : JSStr
  position : Option ℚ
  length : Option ℚ
  running : Option Bool
  playback_rate : Option ℚ
  can_go_prev : Option Bool
  can_seek : Option Bool
  can_go_next : Option Bool
  art_url_hash : JSStr
deriving DecidableEq, Repr

/-- Observable side effects of the update handler and the frame loop. -/
inductive Effect where
  | refetchArtwork : JSStr → Effect
  | frameRequested : ℕ → Effect
  | frameCancelled : ℕ → Effect
deriving DecidableEq, Repr

/-- The mutable per-widget state: the displayed DOM fields and the
extrapolation fields `update_progress` (animation-frame handle, `null` when
idle), `progress_base` and `playback_rate`.  `frame_counter` supplies fresh
handles for `requestAnimationFrame`. -/
structure WidgetState where
  art_url_hash : JSStr
  img_hash : Option JSStr
  title : String
  progress_value : ℚ
  progress_max : ℚ
  prev_hidden : Bool
  seek_hidden : Bool
  next_hidden : Bool
  update_progress : Option ℕ
  frame_counter : ℕ
  progress_base : ℚ
  playback_rate : ℚ
deriving DecidableEq, Repr

/-- Widget state right after `connectedCallback` ran (before any event):
`art_url_hash = null`, no image source yet, empty title, the
`<progress>` element's defaults `value = 0`, `max = 1`, no hidden classes,
`update_progress = null`, `progress_base = 0`, `playback_rate = 1`. -/
def initState : WidgetState :=
  { art_url_hash := .jnull
    img_hash := none
    title := ""
    progress_value := 0
    progress_max := 1
    prev_hidden := false
    seek_hidden := false
    next_hidden := false
    update_progress := none
    frame_counter := 0
    progress_base := 0
    playback_rate := 1 }

/-- The "update" event listener of `get_updates`, statement by statement.
Returns the new state, the list of emitted effects, and `true` when the
handler ran to completion (`false` when an assignment of an absent
`position`/`length` to the restricted-double `progress.value`/`max`
attribute throws a `TypeError`, aborting the rest of the handler but
keeping the mutations already made).

Source order: artwork refetch on hash change; title; `progress.value` and
`progress.max` from the snapshot; the three hidden-class toggles; the
idle→running branch (set `playback_rate` with `?? 1`, recompute
`progress_base = now/1000 - position/(1000000*playback_rate)`, launch the
frame loop); the running→idle branch (cancel the frame and null the
handle). -/
def handleUpdateData (d : JSData) (nowMs : ℚ) (s : WidgetState) :
    WidgetState × List Effect × Bool :=
  let (s1, effs1) :=
    if d.art_url_hash ≠ s.art_url_hash then
      ({ s with img_hash := some d.art_url_hash, art_url_hash := d.art_url_hash },
       [Effect.refetchArtwork d.art_url_hash])
    else (s, [])
  let s2 := { s1 with title := d.title.text }
  match d.position with
  | none => (s2, effs1, false)
  | some pos =>
    let s3 := { s2 with progress_value := pos }
    match d.length with
    | none => (s3, effs1, false)
    | some len =>
      let s4 := { s3 with progress_max := len }
      let s5 := { s4 with
        prev_hidden := ¬ d.can_go_prev = some true
        seek_hidden := ¬ d.can_seek = some true
        next_hidden := ¬ d.can_go_next = some true }
      let (s6, effs2) :=
        if d.running = some true ∧ s5.update_progress = none then
          let pr := d.playback_rate.getD 1
          ({ s5 with
              playback_rate := pr
              progress_base := nowMs / 1000 - pos / (1000000 * pr)
              update_progress := some s5.frame_counter
              frame_counter := s5.frame_counter + 1 },
           [Effect.frameRequested s5.frame_counter])
        else (s5, [])
      let (s7, effs3) :=
        if ¬ d.running = some true ∧ s6.update_progress ≠ none then
          ({ s6 with update_progress := none },
           (s6.update_progress.map Effect.frameCancelled).toList)
        else (s6, [])
      (s7, effs1 ++ effs2 ++ effs3, true)

/-- A well-formed Snapshot as the data model describes it: all required
fields present with their required types; `playback_rate` optional
(default 1 when absent); `art_url_hash` a string or `null`. -/
structure Snapshot where
  title : String
  position : ℚ
  length : ℚ
  running : Bool
  playback_rate : Option ℚ
  can_go_prev : Bool
  can_go_next : Bool
  can_seek : Bool
  art_url_hash : Option String
deriving DecidableEq, Repr

/-- The `art_url_hash` field of a well-formed snapshot as the JS value the
handler compares and stores. -/
def hashJS : Option String → JSStr
  | none => .jnull
  | some h => .str h

/-- Injection of a well-formed snapshot into the raw payload shape. -/
def Snapshot.toData (x : Snapshot) : JSData :=
  { title := .str x.title
    position := some x.position
    length := some x.length
    running := some x.running
    playback_rate := x.playback_rate
    can_go_prev := some x.can_go_prev
    can_seek := some x.can_seek
    can_go_next := some x.can_go_next
    art_url_hash := hashJS x.art_url_hash }

/-- The update handler on a well-formed snapshot (it never throws, so the
completion flag is dropped). -/
def handleUpdate (x : Snapshot) (nowMs : ℚ) (s : WidgetState) :
    WidgetState × List Effect :=
  let r := handleUpdateData x.toData nowMs s
  (r.1, r.2.1)

/-- One execution of the `requestAnimationFrame` callback installed by
`launchUpdateTimer`, on the finite path: write
`progress.value = (now/1000 - progress_base) * 1000000 * playback_rate`,
then re-invoke `launchUpdateTimer`, which stores a fresh frame handle.
In exact-rational semantics every computed value is finite, so the
restricted-double `value` assignment cannot throw here; this matches the
source whenever the anchor was computed with a nonzero rate.  The
zero-rate regime, where the JS computation is non-finite and the
assignment throws instead of landing, is modelled by `tickJS` below. -/
def tick (nowMs : ℚ) (s : WidgetState) : WidgetState :=
  { s with
      progress_value := (nowMs / 1000 - s.progress_base) * 1000000 * s.playback_rate
      update_progress := some s.frame_counter
      frame_counter := s.frame_counter + 1 }

/-- Run the frame callback at each time of a list, in order. -/
def ticks (times : List ℚ) (s : WidgetState) : WidgetState :=
  times.foldl (fun w t => tick t w) s

/-! ## Stream-level model

`get_updates` registers listeners only for the event types "update" and
"end" on the `EventSource`.  An "end" listener removes the element from its
parent; that fires `disconnectedCallback`, which closes the event source and
cancels the animation frame — the complete teardown.  No listener is
registered for error events, so the code reacts to a channel error with
nothing at all. -/

/-- The raw payload of an "update" event: either text that is not valid
JSON (so `JSON.parse` throws at the first line of the listener) or a parsed
value with the fields the handler reads. -/
inductive Payload where
  | malformed : Payload
  | parsed : JSData → Payload
deriving DecidableEq, Repr

/-- One inbound occurrence on the channel: an "update" event (with its
payload and the widget's clock reading when handled), the "end" event, or a
channel error. -/
inductive StreamEvent where
  | update : Payload → ℚ → StreamEvent
  | endEvt : StreamEvent
  | errorEvt : StreamEvent
deriving DecidableEq, Repr

/-- Whether an occurrence is the "end" event. -/
def StreamEvent.isEnd : StreamEvent → Bool
  | .endEvt => true
  | _ => false

/-- The controller around one widget: whether the element is still mounted
in the DOM, whether the `EventSource` subscription is open, and how many
times the end-of-stream teardown (detach + close + cancel frame) ran. -/
structure ControllerState where
  widget : WidgetState
  mounted : Bool
  channel_open : Bool
  teardowns : ℕ
deriving DecidableEq, Repr

/-- Controller at mount time: widget initialised, element in the DOM,
subscription open, no teardown yet. -/
def initController : ControllerState :=
  { widget := initState, mounted := true, channel_open := true, teardowns := 0 }

/-- Dispatch of one channel occurrence, exactly as the registered listeners
handle it.  Nothing is delivered once the source is closed.  A malformed
payload makes `JSON.parse` throw before any mutation, leaving the
controller unchanged (the exception is not fatal: the channel stays open).
"end" removes the element, firing `disconnectedCallback` (close + cancel):
one teardown.  A channel error matches no registered listener. -/
def streamStep (c : ControllerState) (e : StreamEvent) : ControllerState :=
  if c.channel_open then
    match e with
    | .update p nowMs =>
      match p with
      | .malformed => c
      | .parsed d => { c with widget := (handleUpdateData d nowMs c.widget).1 }
    | .endEvt =>
      { c with mounted := false, channel_open := false, teardowns := c.teardowns + 1 }
    | .errorEvt => c
  else c

/-- Deliver a sequence of channel occurrences in order. -/
def runStream (c : ControllerState) (es : List StreamEvent) : ControllerState :=
  es.foldl streamStep c

/-! ## Command surface

`connectedCallback` wires each button (and the element-level click) to a
single fire-and-forget POST.  These are the only commands the element can
issue. -/

/-- A backend command request, as encoded in the POSTed URL. -/
inductive Command where
  | prev : Command
  | next : Command
  | playpause : Command
  | seek : ℤ → Command
deriving DecidableEq, Repr

/-- The commands wired up by `connectedCallback`, in registration order:
the Prev button, the Seek Backward button (delta -10000000), the
Seek Forward button (delta +10000000), the Next button, and the
element-level play/pause click. -/
def registeredCommands : List Command :=
  [.prev, .seek (-10000000), .seek 10000000, .next, .playpause]

/-! ## IEEE special-value model of the anchor arithmetic

The main model uses exact rationals, where `q / 0 = 0`; JavaScript instead
produces ±Infinity or NaN.  `JSNum` refines the two numeric expressions of
the source that can divide by zero — the anchor computation of the
idle→running branch and the frame-callback expression — with the IEEE-754
special-value rules (finite values stay exact; overflow to infinity of
finite arithmetic is not modelled, which only enlarges the set of
non-finite results and is not needed below). -/

/-- A JavaScript number: NaN, +Infinity (`inf true`), -Infinity
(`inf false`), or a finite value. -/
inductive JSNum where
  | nan : JSNum
  | inf : Bool → JSNum
  | fin : ℚ → JSNum
deriving DecidableEq, Repr

/-- Finiteness classification. -/
def JSNum.isFinite : JSNum → Bool
  | .fin _ => true
  | _ => false

/-- IEEE subtraction restricted to the values above. -/
def JSNum.sub : JSNum → JSNum → JSNum
  | .nan, _ => .nan
  | _, .nan => .nan
  | .inf a, .inf b => if a = b then .nan else .inf a
  | .inf a, .fin _ => .inf a
  | .fin _, .inf b => .inf !b
  | .fin a, .fin b => .fin (a - b)

/-- IEEE multiplication restricted to the values above (the sign of a
finite zero is irrelevant for the expressions modelled: `±∞ * 0 = NaN`
either way). -/
def JSNum.mul : JSNum → JSNum → JSNum
  | .nan, _ => .nan
  | _, .nan => .nan
  | .inf a, .inf b => .inf (a = b)
  | .inf a, .fin q => if q = 0 then .nan else .inf (a = decide (0 < q))
  | .fin q, .inf b => if q = 0 then .nan else .inf (b = decide (0 < q))
  | .fin a, .fin b => .fin (a * b)

/-- IEEE division restricted to the values above (the divisors that occur
are non-negative, so a zero divisor is `+0`). -/
def JSNum.div : JSNum → JSNum → JSNum
  | .nan, _ => .nan
  | _, .nan => .nan
  | .inf _, .inf _ => .nan
  | .inf a, .fin q => if q < 0 then .inf !a else .inf a
  | .fin _, .inf _ => .fin 0
  | .fin a, .fin b =>
    if b = 0 then (if a = 0 then .nan else .inf (decide (0 < a))) else .fin (a / b)

/-- Line `this.progress_base = performance.now() / 1000 -
data.position / (1000000 * this.playback_rate)` of the idle→running branch,
after `this.playback_rate = data.playback_rate ?? 1`, in JS number
semantics. -/
def progressBaseJS (nowMs position : JSNum) (playback_rate : Option JSNum) : JSNum :=
  let pr := playback_rate.getD (.fin 1)
  (nowMs.div (.fin 1000)).sub (position.div ((JSNum.fin 1000000).mul pr))

/-- The frame-callback expression `(performance.now() / 1000 -
this.progress_base) * 1000000 * this.playback_rate` in JS number
semantics. -/
def tickValueJS (nowMs base rate : JSNum) : JSNum :=
  ((nowMs.div (.fin 1000)).sub base).mul (JSNum.fin 1000000) |>.mul rate

/-- The fields of the widget the frame callback touches, in JS number
semantics: the displayed `progress.value`, the anchor, and whether the
callback reached its final `launchUpdateTimer()` line (i.e. whether a next
frame is scheduled). -/
structure FrameStateJS where
  progress_value : JSNum
  progress_base : JSNum
  playback_rate : JSNum
  scheduled : Bool
deriving DecidableEq, Repr

/-- One execution of the frame callback in JS number semantics.
`progress.value` is a restricted `double`: assigning a non-finite computed
value throws a TypeError (the same semantics `handleUpdateData` gives the
`value`/`max` assignments), so the write does not land and the
`launchUpdateTimer()` call on the next line is never reached — no further
frame is scheduled.  On a finite value the write lands and the loop
reschedules. -/
def tickJS (nowMs : ℚ) (s : FrameStateJS) : FrameStateJS :=
  let v := tickValueJS (.fin nowMs) s.progress_base s.playback_rate
  if v.isFinite then { s with progress_value := v, scheduled := true }
  else { s with scheduled := false }

/-! ## Concrete test data -/

/-- Classifies the artwork-refetch effect. -/
def Effect.isRefetch : Effect → Bool
  | .refetchArtwork _ => true
  | _ => false

/-- A concrete running snapshot: position 5000000 µs, rate 2, hash "h1". -/
def snapA : Snapshot :=
  { title := "Song A", position := 5000000, length := 10000000, running := true,
    playback_rate := some 2, can_go_prev := true, can_go_next := true,
    can_seek := true, art_url_hash := some "h1" }

/-- A running snapshot with a different position, rate and artwork hash. -/
def snapB : Snapshot :=
  { title := "Song B", position := 999999999, length := 2000000000, running := true,
    playback_rate := some 3, can_go_prev := true, can_go_next := true,
    can_seek := true, art_url_hash := some "h2" }

/-- Same artwork hash as `snapA`, different position. -/
def snapC : Snapshot :=
  { title := "Song A", position := 6000000, length := 10000000, running := true,
    playback_rate := some 2, can_go_prev := true, can_go_next := true,
    can_seek := true, art_url_hash := some "h1" }

/-- A stopping snapshot (`running = false`). -/
def snapStop : Snapshot :=
  { title := "Song A", position := 7000000, length := 10000000, running := false,
    playback_rate := some 2, can_go_prev := true, can_go_next := true,
    can_seek := true, art_url_hash := some "h1" }

/-- A running snapshot whose payload carries `playback_rate = 0`. -/
def snapZero : Snapshot :=
  { title := "Zero", position := 5000000, length := 10000000, running := true,
    playback_rate := some 0, can_go_prev := true, can_go_next := true,
    can_seek := true, art_url_hash := some "h1" }

/-- The frame-callback state right after `snapZero` anchored the loop at
0ms: displayed value still the snapshot's position (written by the update
listener), anchor base as line 101 computes it with rate 0, one frame
scheduled. -/
def frameZero : FrameStateJS :=
  { progress_value := .fin snapZero.position
    progress_base := progressBaseJS (.fin 0) (.fin snapZero.position) (some (.fin 0))
    playback_rate := .fin 0
    scheduled := true }

/-- A payload that is valid JSON but not a well-formed snapshot: every field
is absent.  `JSON.parse` succeeds on e.g. "\x7b\x7d", so the listener body
runs on it. -/
def emptyObjectPayload : JSData :=
  { title := .undef, position := none, length := none, running := none,
    playback_rate := none, can_go_prev := none, can_seek := none,
    can_go_next := none, art_url_hash := .undef }

/-! ## Handler lemmas -/

theorem handleUpdate_value (x : Snapshot) (t : ℚ) (s : WidgetState) :
    (handleUpdate x t s).1.progress_value = x.position := by
  simp only [handleUpdate, Snapshot.toData, handleUpdateData]
  split_ifs <;> simp

theorem handleUpdate_max (x : Snapshot) (t : ℚ) (s : WidgetState) :
    (handleUpdate x t s).1.progress_max = x.length := by
  simp only [handleUpdate, Snapshot.toData, handleUpdateData]
  split_ifs <;> simp

theorem handleUpdate_art (x : Snapshot) (t : ℚ) (s : WidgetState) :
    (handleUpdate x t s).1.art_url_hash = hashJS x.art_url_hash := by
  simp only [handleUpdate, Snapshot.toData, handleUpdateData]
  split_ifs with h <;> simp_all

theorem handleUpdate_idle_run (x : Snapshot) (t : ℚ) (s : WidgetState)
    (hi : s.update_progress = none) (hr : x.running = true) :
    (handleUpdate x t s).1.playback_rate = x.playback_rate.getD 1 ∧
    (handleUpdate x t s).1.progress_base
      = t / 1000 - x.position / (1000000 * x.playback_rate.getD 1) ∧
    (handleUpdate x t s).1.update_progress = some s.frame_counter := by
  simp only [handleUpdate, Snapshot.toData, handleUpdateData]
  split_ifs <;> simp_all

theorem handleUpdate_active_run (x : Snapshot) (t : ℚ) (s : WidgetState) (h : ℕ)
    (ha : s.update_progress = some h) (hr : x.running = true) :
    (handleUpdate x t s).1.playback_rate = s.playback_rate ∧
    (handleUpdate x t s).1.progress_base = s.progress_base ∧
    (handleUpdate x t s).1.update_progress = some h := by
  simp only [handleUpdate, Snapshot.toData, handleUpdateData]
  split_ifs <;> simp_all

theorem handleUpdate_stop (x : Snapshot) (t : ℚ) (s : WidgetState)
    (hr : x.running = false) :
    (handleUpdate x t s).1.update_progress = none ∧
    (handleUpdate x t s).1.progress_base = s.progress_base ∧
    (handleUpdate x t s).1.playback_rate = s.playback_rate := by
  simp only [handleUpdate, Snapshot.toData, handleUpdateData]
  split_ifs <;> simp_all

theorem handleUpdate_refetch_count (x : Snapshot) (t : ℚ) (s : WidgetState) :
    (handleUpdate x t s).2.countP (fun e => e.isRefetch) =
      if hashJS x.art_url_hash = s.art_url_hash then 0 else 1 := by
  simp only [handleUpdate, Snapshot.toData, handleUpdateData]
  split_ifs <;> simp_all [Effect.isRefetch, List.countP_append, List.countP_cons, Option.toList]
  <;> cases s.update_progress <;> simp [List.countP, List.countP.go, Effect.isRefetch]

theorem handleUpdate_img (x : Snapshot) (t : ℚ) (s : WidgetState) :
    (handleUpdate x t s).1.img_hash =
      if hashJS x.art_url_hash = s.art_url_hash then s.img_hash
      else some (hashJS x.art_url_hash) := by
  simp only [handleUpdate, Snapshot.toData, handleUpdateData]
  split_ifs <;> simp_all

theorem hashJS_inj {a b : Option String} (h : hashJS a = hashJS b) : a = b := by
  cases a <;> cases b <;> simp_all [hashJS]

/-! ## Frame-loop lemmas -/

theorem tick_value (t : ℚ) (s : WidgetState) :
    (tick t s).progress_value
      = (t / 1000 - s.progress_base) * 1000000 * s.playback_rate := rfl

theorem ticks_anchor (ts : List ℚ) (s : WidgetState) :
    (ticks ts s).progress_base = s.progress_base ∧
    (ticks ts s).playback_rate = s.playback_rate := by
  induction ts generalizing s with
  | nil => simp [ticks]
  | cons t ts ih => simpa [ticks, List.foldl] using ih (tick t s)

/-! ## Stream dispatch lemmas -/

theorem streamStep_not_end (c : ControllerState) (e : StreamEvent)
    (he : e.isEnd = false) :
    (streamStep c e).channel_open = c.channel_open ∧
    (streamStep c e).teardowns = c.teardowns ∧
    (streamStep c e).mounted = c.mounted := by
  cases e <;> simp_all [streamStep, StreamEvent.isEnd]
  case update p t =>
    cases p <;> by_cases hc : c.channel_open <;> simp_all [streamStep]

theorem runStream_closed (c : ControllerState) (es : List StreamEvent)
    (h : c.channel_open = false) : runStream c es = c := by
  induction es with
  | nil => rfl
  | cons e es ih => simp [runStream, List.foldl, streamStep, h] at ih ⊢; simp [ih]

theorem runStream_teardowns (c : ControllerState) (es : List StreamEvent)
    (h : c.channel_open = true) :
    (runStream c es).teardowns = c.teardowns + (if es.any StreamEvent.isEnd then 1 else 0) ∧
    (runStream c es).channel_open = !es.any StreamEvent.isEnd := by
  induction es generalizing c with
  | nil => simp [runStream, h]
  | cons e es ih =>
    by_cases he : e.isEnd = true
    · cases e <;> simp_all [StreamEvent.isEnd]
      have h2 := runStream_closed (streamStep c .endEvt) es (by simp [streamStep, h])
      simp [runStream, List.foldl, streamStep, h] at h2 ⊢
      simp [h2]
    · obtain ⟨h1, h2, h3⟩ := streamStep_not_end c e (by simpa using he)
      have h4 := ih (streamStep c e) (h1.trans h)
      simp [runStream, List.foldl] at h4 ⊢
      simp [h4.1, h4.2, h2, he]

/-- Core extrapolation lemma: from an idle widget, a running snapshot at
time `t0` (ms) with nonzero rate `R` anchors the loop so that a frame tick
`Δ` seconds later displays `position + Δ*R*1000000`, whatever frame ticks
ran in between. -/
theorem extrapolation_from_idle (s : WidgetState) (x : Snapshot)
    (t0 Δ R : ℚ) (times : List ℚ)
    (hidle : s.update_progress = none) (hrun : x.running = true)
    (hrate : x.playback_rate = some R) (hR : R ≠ 0) :
    (tick (t0 + 1000 * Δ) (ticks times (handleUpdate x t0 s).1)).progress_value
      = x.position + Δ * R * 1000000 := by
  obtain ⟨h1, h2, -⟩ := handleUpdate_idle_run x t0 s hidle hrun
  obtain ⟨hb, hr2⟩ := ticks_anchor times (handleUpdate x t0 s).1
  rw [tick_value, hb, hr2, h1, h2, hrate]
  simp only [Option.getD_some]
  field_simp
  ring

/-! ## Claims -/

/-- C1: from Idle, a running snapshot at monotonic time `t0` (ms) with
position `P0` and nonzero rate `R` makes the frame tick at `t0 + 1000*Δ`
(Δ seconds later, `Δ ≥ 0`) display `P0 + Δ*R*1000000` µs, independent of
how many intermediate ticks ran. -/
theorem c1_idle_to_running_extrapolation (s : WidgetState) (x : Snapshot)
    (t0 Δ R : ℚ) (times : List ℚ)
    (hidle : s.update_progress = none) (hrun : x.running = true)
    (hrate : x.playback_rate = some R) (hR : R ≠ 0) (_hΔ : 0 ≤ Δ) :
    (tick (t0 + 1000 * Δ) (ticks times (handleUpdate x t0 s).1)).progress_value
      = x.position + Δ * R * 1000000 :=
  extrapolation_from_idle s x t0 Δ R times hidle hrun hrate hR

/-- C1 witness: snapshot at position 5000000 µs, rate 2, anchored at
t0 = 0; one second later (with two intermediate ticks) the displayed value
is 5000000 + 1*2*1000000 = 7000000. -/
theorem c1_idle_to_running_extrapolation_witness :
    (tick (0 + 1000 * 1) (ticks [400, 700] (handleUpdate snapA 0 initState).1)).progress_value
      = snapA.position + 1 * 2 * 1000000 :=
  c1_idle_to_running_extrapolation initState snapA 0 1 2 [400, 700] rfl rfl rfl
    (by norm_num) (by norm_num)

/-- C2 counterexample: the claim says the per-frame tick is the only writer
of the displayed progress while Active.  In the code, the update listener
writes `child_progress.value = data.position` on every snapshot: from the
Active state produced by `snapA` (displayed value 5000000), delivering the
routine running snapshot `snapB` discontinuously rewrites the displayed
value (to 999999999) with no tick involved. -/
theorem c2_active_snapshot_write_cex :
    (handleUpdate snapA 0 initState).1.update_progress ≠ none ∧
    snapB.running = true ∧
    (handleUpdate snapB 1000 (handleUpdate snapA 0 initState).1).1.progress_value
      ≠ (handleUpdate snapA 0 initState).1.progress_value := by
  refine ⟨by decide, rfl, ?_⟩
  rw [handleUpdate_value, handleUpdate_value]
  norm_num [snapA, snapB]

/-- C2 amended: while Active, snapshot delivery also writes the displayed
progress — every update sets `progress.value` to the snapshot's position
and `progress.max` to its length (the next tick then overwrites the value
from the anchor), so a running snapshot whose position differs from the
extrapolated value does jump; the frame handle itself is untouched. -/
theorem c2_amended_snapshot_also_writes (s : WidgetState) (x : Snapshot)
    (t : ℚ) (h : ℕ) (ha : s.update_progress = some h) (hrun : x.running = true) :
    (handleUpdate x t s).1.progress_value = x.position ∧
    (handleUpdate x t s).1.progress_max = x.length ∧
    (handleUpdate x t s).1.update_progress = some h :=
  ⟨handleUpdate_value x t s, handleUpdate_max x t s,
    (handleUpdate_active_run x t s h ha hrun).2.2⟩

/-- C2 amended, witness at the Active state reached from `snapA`. -/
theorem c2_amended_snapshot_also_writes_witness :
    (handleUpdate snapB 1000 (handleUpdate snapA 0 initState).1).1.progress_value
        = snapB.position ∧
    (handleUpdate snapB 1000 (handleUpdate snapA 0 initState).1).1.progress_max
        = snapB.length ∧
    (handleUpdate snapB 1000 (handleUpdate snapA 0 initState).1).1.update_progress
        = some 0 :=
  c2_amended_snapshot_also_writes (handleUpdate snapA 0 initState).1 snapB 1000 0
    (by decide) rfl

/-- C3 counterexample: the claim says the anchor is recomputed exactly once
per snapshot that arrives while running.  In the code it is not recomputed
at all then: from the Active state anchored by `snapA`, the running
snapshot `snapB` (position 999999999, rate 3) leaves `progress_base`
untouched, and the stored base differs from the base a recomputation from
`snapB` at that instant would have produced. -/
theorem c3_reanchor_while_running_cex :
    (handleUpdate snapA 0 initState).1.update_progress ≠ none ∧
    snapB.running = true ∧
    (handleUpdate snapB 5000 (handleUpdate snapA 0 initState).1).1.progress_base
      = (handleUpdate snapA 0 initState).1.progress_base ∧
    (handleUpdate snapA 0 initState).1.progress_base
      ≠ 5000 / 1000 - snapB.position / (1000000 * snapB.playback_rate.getD 1) := by
  refine ⟨by decide, rfl, ?_, ?_⟩
  · exact (handleUpdate_active_run snapB 5000 _ 0 (by decide) rfl).2.1
  · rw [(handleUpdate_idle_run snapA 0 initState rfl rfl).2.1]
    norm_num [snapA, snapB]

/-- C3 amended: the anchor is recomputed exactly once per idle→running
transition — from the incoming snapshot and the clock alone, never
incrementally from the previous anchor (the recomputed base is the same
whatever anchor the state held) — and a snapshot that arrives while
running never touches the anchor. -/
theorem c3_amended_anchor_policy (s s2 : WidgetState) (x : Snapshot)
    (t : ℚ) (h : ℕ)
    (hi : s.update_progress = none) (ha : s2.update_progress = some h)
    (hrun : x.running = true) :
    ((handleUpdate x t s).1.progress_base
        = t / 1000 - x.position / (1000000 * x.playback_rate.getD 1) ∧
      (handleUpdate x t s).1.playback_rate = x.playback_rate.getD 1) ∧
    ((handleUpdate x t s2).1.progress_base = s2.progress_base ∧
      (handleUpdate x t s2).1.playback_rate = s2.playback_rate) := by
  obtain ⟨a1, a2, -⟩ := handleUpdate_idle_run x t s hi hrun
  obtain ⟨b1, b2, -⟩ := handleUpdate_active_run x t s2 h ha hrun
  exact ⟨⟨a2, a1⟩, b2, b1⟩

/-- C3 amended, witness: `snapB` anchored from Idle at t = 5000ms, and
delivered to the Active state reached from `snapA` without re-anchoring. -/
theorem c3_amended_anchor_policy_witness :
    ((handleUpdate snapB 5000 initState).1.progress_base
        = 5000 / 1000 - snapB.position / (1000000 * snapB.playback_rate.getD 1) ∧
      (handleUpdate snapB 5000 initState).1.playback_rate
        = snapB.playback_rate.getD 1) ∧
    ((handleUpdate snapB 5000 (handleUpdate snapA 0 initState).1).1.progress_base
        = (handleUpdate snapA 0 initState).1.progress_base ∧
      (handleUpdate snapB 5000 (handleUpdate snapA 0 initState).1).1.playback_rate
        = (handleUpdate snapA 0 initState).1.playback_rate) :=
  c3_amended_anchor_policy initState (handleUpdate snapA 0 initState).1 snapB 5000 0
    rfl (by decide) rfl

/-- C4 counterexample: the claim says an unrecoverable channel error is
handled identically to "end" (teardown once, channel closed).  The code
registers no error listener: a channel error at the freshly mounted
controller performs no teardown, leaves the element mounted and the
subscription open, whereas "end" tears down once, unmounts and closes. -/
theorem c4_channel_error_ignored_cex :
    (streamStep initController .errorEvt).teardowns = 0 ∧
    (streamStep initController .errorEvt).mounted = true ∧
    (streamStep initController .errorEvt).channel_open = true ∧
    (streamStep initController .endEvt).teardowns = 1 ∧
    (streamStep initController .endEvt).mounted = false ∧
    (streamStep initController .endEvt).channel_open = false := by
  decide

/-- C4 amended: on an inbound "end" the teardown (detach from mount, close
the subscription, cancel the frame callback) runs exactly once and the
channel is closed, across any sequence of events (an end is processed at
most once because the closed source delivers nothing further); a channel
error has no registered handler and changes nothing. -/
theorem c4_amended_end_teardown_once (c : ControllerState) (es : List StreamEvent)
    (h : c.channel_open = true) :
    ((runStream c es).teardowns
        = c.teardowns + (if es.any StreamEvent.isEnd then 1 else 0)) ∧
    ((runStream c es).channel_open = !es.any StreamEvent.isEnd) ∧
    streamStep c .errorEvt = c :=
  ⟨(runStream_teardowns c es h).1, (runStream_teardowns c es h).2,
    by simp [streamStep, h]⟩

/-- C4 amended, witness: two "end"s and an error still tear down exactly
once and leave the channel closed. -/
theorem c4_amended_end_teardown_once_witness :
    (runStream initController [.endEvt, .errorEvt, .endEvt]).teardowns = 1 ∧
    (runStream initController [.endEvt, .errorEvt, .endEvt]).channel_open = false := by
  have h := c4_amended_end_teardown_once initController [.endEvt, .errorEvt, .endEvt] rfl
  exact ⟨h.1.trans (by decide), h.2.1.trans (by decide)⟩

/-- C5 counterexample: the claim says a running snapshot delivered while
Active updates the stored rate to the snapshot's `playback_rate`.  In the
code the `playback_rate` assignment sits inside the idle→running branch
only: after anchoring at rate 2 from `snapA`, delivering `snapB`
(rate 3) leaves the stored rate at 2. -/
theorem c5_rate_not_updated_cex :
    (handleUpdate snapA 0 initState).1.update_progress ≠ none ∧
    snapB.running = true ∧ snapB.playback_rate = some 3 ∧
    (handleUpdate snapB 5000 (handleUpdate snapA 0 initState).1).1.playback_rate = 2 ∧
    (2 : ℚ) ≠ 3 := by
  refine ⟨by decide, rfl, rfl, ?_, by norm_num⟩
  rw [(handleUpdate_active_run snapB 5000 _ 0 (by decide) rfl).1,
    (handleUpdate_idle_run snapA 0 initState rfl rfl).1]
  simp [snapA]

/-- C5 amended: a running snapshot delivered while Active leaves the
stored rate unchanged as well as the anchor base — the snapshot's
`playback_rate` is read only at the idle→running transition. -/
theorem c5_amended_active_keeps_anchor (s : WidgetState) (x : Snapshot)
    (t : ℚ) (h : ℕ) (ha : s.update_progress = some h) (hrun : x.running = true) :
    (handleUpdate x t s).1.playback_rate = s.playback_rate ∧
    (handleUpdate x t s).1.progress_base = s.progress_base :=
  ⟨(handleUpdate_active_run x t s h ha hrun).1,
    (handleUpdate_active_run x t s h ha hrun).2.1⟩

/-- C5 amended, witness at the Active state reached from `snapA`. -/
theorem c5_amended_active_keeps_anchor_witness :
    (handleUpdate snapB 5000 (handleUpdate snapA 0 initState).1).1.playback_rate
        = (handleUpdate snapA 0 initState).1.playback_rate ∧
    (handleUpdate snapB 5000 (handleUpdate snapA 0 initState).1).1.progress_base
        = (handleUpdate snapA 0 initState).1.progress_base :=
  c5_amended_active_keeps_anchor (handleUpdate snapA 0 initState).1 snapB 5000 0
    (by decide) rfl

/-- C6 counterexample: the claim says every payload that is not a
well-formed snapshot is skipped with the displayed state unchanged.  A
payload that is valid JSON but an empty object reaches the listener body:
it clears the displayed title to the empty string (`textContent` treats
the converted-to-null `undefined` as ""), rewrites the stored artwork hash
to undefined (triggering one refetch of an `/icon/.../undefined` URL), and
only then aborts at the `progress.value` assignment — prior displayed
state is lost. -/
theorem c6_parsed_malformed_applied_cex :
    (handleUpdateData emptyObjectPayload 1000 (handleUpdate snapA 0 initState).1).1.title
        ≠ (handleUpdate snapA 0 initState).1.title ∧
    (handleUpdateData emptyObjectPayload 1000 (handleUpdate snapA 0 initState).1).1.art_url_hash
        ≠ (handleUpdate snapA 0 initState).1.art_url_hash ∧
    (handleUpdateData emptyObjectPayload 1000 (handleUpdate snapA 0 initState).1).2.1.countP
        (fun e => e.isRefetch) = 1 ∧
    (handleUpdateData emptyObjectPayload 1000 (handleUpdate snapA 0 initState).1).2.2
        = false := by
  decide

/-- C6 amended: only a payload that fails JSON parsing is skipped — the
thrown parse error leaves the whole controller (displayed state, anchor,
extrapolation mode, mount, channel) unchanged and is not fatal; a payload
that parses but is not a well-formed snapshot is applied field by field up
to its first failing assignment. -/
theorem c6_amended_parse_failure_skips (c : ControllerState) (t : ℚ) :
    streamStep c (.update .malformed t) = c := by
  by_cases hc : c.channel_open <;> simp [streamStep, hc]

/-- C7: stopping and restarting re-anchors.  From any state (in
particular an Active one), a `running = false` snapshot cancels the loop;
a later running snapshot at `t1` (ms) with nonzero rate `R` re-anchors so
that a tick `Δ` seconds after `t1` shows `position + Δ*R*1000000` — the
result does not mention anything from before the stop. -/
theorem c7_restart_reanchors (s : WidgetState) (xstop x1 : Snapshot)
    (tstop t1 Δ R : ℚ) (times : List ℚ)
    (_hact : s.update_progress ≠ none)
    (hstop : xstop.running = false) (hrun : x1.running = true)
    (hrate : x1.playback_rate = some R) (hR : R ≠ 0) (_hΔ : 0 ≤ Δ) :
    (tick (t1 + 1000 * Δ)
        (ticks times
          (handleUpdate x1 t1 (handleUpdate xstop tstop s).1).1)).progress_value
      = x1.position + Δ * R * 1000000 :=
  extrapolation_from_idle _ x1 t1 Δ R times
    (handleUpdate_stop xstop tstop s hstop).1 hrun hrate hR

/-- C7 witness: run from `snapA`, stop at 6000ms, restart with `snapB`
(rate 3) at 8000ms; two seconds later the display shows
999999999 + 2*3*1000000. -/
theorem c7_restart_reanchors_witness :
    (tick (8000 + 1000 * 2)
        (ticks [8100]
          (handleUpdate snapB 8000
            (handleUpdate snapStop 6000 (handleUpdate snapA 0 initState).1).1).1)).progress_value
      = snapB.position + 2 * 3 * 1000000 :=
  c7_restart_reanchors (handleUpdate snapA 0 initState).1 snapStop snapB 6000 8000 2 3
    [8100] (by decide) rfl rfl rfl (by norm_num) (by norm_num)

/-- C8: across two consecutive snapshots, an unchanged `art_url_hash`
triggers no artwork refetch and leaves the image reference untouched; a
changed hash triggers exactly one refetch and the stored hash becomes the
new value. -/
theorem c8_artwork_refetch (w : WidgetState) (x1 x2 : Snapshot) (t1 t2 : ℚ) :
    (x2.art_url_hash = x1.art_url_hash →
      (handleUpdate x2 t2 (handleUpdate x1 t1 w).1).2.countP (fun e => e.isRefetch) = 0 ∧
      (handleUpdate x2 t2 (handleUpdate x1 t1 w).1).1.img_hash
        = (handleUpdate x1 t1 w).1.img_hash) ∧
    (x2.art_url_hash ≠ x1.art_url_hash →
      (handleUpdate x2 t2 (handleUpdate x1 t1 w).1).2.countP (fun e => e.isRefetch) = 1 ∧
      (handleUpdate x2 t2 (handleUpdate x1 t1 w).1).1.art_url_hash
        = hashJS x2.art_url_hash) := by
  have ha := handleUpdate_art x1 t1 w
  constructor
  · intro heq
    constructor
    · rw [handleUpdate_refetch_count, ha, heq]; simp
    · rw [handleUpdate_img, ha, heq]; simp
  · intro hne
    have hne2 : hashJS x2.art_url_hash ≠ hashJS x1.art_url_hash :=
      fun hcontra => hne (hashJS_inj hcontra)
    refine ⟨?_, handleUpdate_art x2 t2 _⟩
    rw [handleUpdate_refetch_count, ha]
    simp [hne2]

/-- C8 witness: `snapC` repeats `snapA`'s hash — no refetch; `snapB`
changes it — one refetch. -/
theorem c8_artwork_refetch_witness :
    (handleUpdate snapC 1 (handleUpdate snapA 0 initState).1).2.countP
        (fun e => e.isRefetch) = 0 ∧
    (handleUpdate snapB 1 (handleUpdate snapA 0 initState).1).2.countP
        (fun e => e.isRefetch) = 1 :=
  ⟨((c8_artwork_refetch initState snapA snapC 0 1).1 (by decide)).1,
    ((c8_artwork_refetch initState snapA snapB 0 1).2 (by decide)).1⟩

/-- With rate 0 the anchor base of line 101 is non-finite (±Infinity for a
nonzero position, NaN for position 0), for every clock value. -/
theorem progressBaseJS_zero_nonfinite (t P : ℚ) :
    (progressBaseJS (.fin t) (.fin P) (some (.fin 0))).isFinite = false := by
  rcases lt_trichotomy P 0 with h | h | h
  · simp [progressBaseJS, JSNum.div, JSNum.mul, JSNum.sub, JSNum.isFinite, h.ne]
  · simp [progressBaseJS, JSNum.div, JSNum.mul, JSNum.sub, JSNum.isFinite, h]
  · simp [progressBaseJS, JSNum.div, JSNum.mul, JSNum.sub, JSNum.isFinite, h.ne']

/-- With a rate-0 anchor, the frame callback's computed value is
non-finite (NaN), for every tick instant and position. -/
theorem tickValueJS_zero_nonfinite (tF t P : ℚ) :
    (tickValueJS (.fin tF) (progressBaseJS (.fin t) (.fin P) (some (.fin 0)))
        (.fin 0)).isFinite = false := by
  rcases lt_trichotomy P 0 with h | h | h
  · simp [progressBaseJS, tickValueJS, JSNum.div, JSNum.mul, JSNum.sub,
      JSNum.isFinite, h.ne]
  · simp [progressBaseJS, tickValueJS, JSNum.div, JSNum.mul, JSNum.sub,
      JSNum.isFinite, h]
  · simp [progressBaseJS, tickValueJS, JSNum.div, JSNum.mul, JSNum.sub,
      JSNum.isFinite, h.ne']

/-- When the frame callback's computed value is non-finite, the
restricted-double write throws: the displayed value is unchanged and no
next frame is scheduled. -/
theorem tickJS_nonfinite (nowMs : ℚ) (s : FrameStateJS)
    (h : (tickValueJS (.fin nowMs) s.progress_base s.playback_rate).isFinite = false) :
    (tickJS nowMs s).progress_value = s.progress_value ∧
    (tickJS nowMs s).scheduled = false := by
  simp [tickJS, h]

/-- C9 counterexample: the claim says every subsequent tick writes a
non-finite displayed position.  At the rate-0 anchor from `snapZero` the
first frame's computed value is indeed non-finite (NaN) — but
`progress.value` is a restricted double, so the assignment throws: the
write never lands, the displayed value stays the snapshot's finite
position, and `launchUpdateTimer` is never reached, so no further tick
exists.  No tick ever writes a non-finite displayed position. -/
theorem c9_zero_rate_first_write_throws_cex :
    (progressBaseJS (.fin 0) (.fin snapZero.position) (some (.fin 0))).isFinite = false ∧
    (tickValueJS (.fin 500) frameZero.progress_base frameZero.playback_rate).isFinite
        = false ∧
    (tickJS 500 frameZero).progress_value = .fin snapZero.position ∧
    ((tickJS 500 frameZero).progress_value).isFinite = true ∧
    (tickJS 500 frameZero).scheduled = false := by
  have hv : (tickValueJS (.fin 500) frameZero.progress_base
      frameZero.playback_rate).isFinite = false :=
    tickValueJS_zero_nonfinite 500 0 snapZero.position
  obtain ⟨hw, hs⟩ := tickJS_nonfinite 500 frameZero hv
  exact ⟨progressBaseJS_zero_nonfinite 0 snapZero.position, hv,
    hw.trans rfl, by rw [hw]; rfl, hs⟩

/-- C9 amended: the idle→running anchor computation divides by
`1000000 * playback_rate` without guarding against a zero rate (the `?? 1`
default applies only to an absent field, not to 0): a running rate-0
snapshot delivered while Idle stores rate 0 and launches the loop, the
computed anchor base is non-finite, and the first frame's computed value
is non-finite (NaN) — but the restricted-double `progress.value`
assignment throws on it, so the write never lands (the displayed value is
unchanged) and the loop is not rescheduled: it dies after that first
frame, and no tick ever writes a non-finite displayed position. -/
theorem c9_amended_zero_rate_throw (s : WidgetState) (x : Snapshot) (t tF : ℚ)
    (f : FrameStateJS)
    (hi : s.update_progress = none) (hrun : x.running = true)
    (h0 : x.playback_rate = some 0)
    (hb : f.progress_base = progressBaseJS (.fin t) (.fin x.position) (some (.fin 0)))
    (hr : f.playback_rate = .fin 0) :
    (handleUpdate x t s).1.playback_rate = 0 ∧
    (handleUpdate x t s).1.update_progress ≠ none ∧
    (progressBaseJS (.fin t) (.fin x.position) (some (.fin 0))).isFinite = false ∧
    (tickValueJS (.fin tF) f.progress_base f.playback_rate).isFinite = false ∧
    (tickJS tF f).progress_value = f.progress_value ∧
    (tickJS tF f).scheduled = false := by
  obtain ⟨h1, -, h3⟩ := handleUpdate_idle_run x t s hi hrun
  have hv : (tickValueJS (.fin tF) f.progress_base f.playback_rate).isFinite = false := by
    rw [hb, hr]; exact tickValueJS_zero_nonfinite tF t x.position
  obtain ⟨hw, hs⟩ := tickJS_nonfinite tF f hv
  exact ⟨by rw [h1, h0]; rfl, by rw [h3]; simp,
    progressBaseJS_zero_nonfinite t x.position, hv, hw, hs⟩

/-- C9 amended, witness at `snapZero` (rate 0, position 5000000), anchored
at 0ms with the first frame firing at 500ms. -/
theorem c9_amended_zero_rate_throw_witness :
    (handleUpdate snapZero 0 initState).1.playback_rate = 0 ∧
    (handleUpdate snapZero 0 initState).1.update_progress ≠ none ∧
    (progressBaseJS (.fin 0) (.fin snapZero.position) (some (.fin 0))).isFinite = false ∧
    (tickValueJS (.fin 500) frameZero.progress_base frameZero.playback_rate).isFinite
        = false ∧
    (tickJS 500 frameZero).progress_value = frameZero.progress_value ∧
    (tickJS 500 frameZero).scheduled = false :=
  c9_amended_zero_rate_throw initState snapZero 0 500 frameZero rfl rfl rfl rfl rfl

/-- C10: every seek command the element can issue carries a delta of
exactly +10000000 or -10000000 microseconds. -/
theorem c10_seek_delta_fixed (d : ℤ) (h : Command.seek d ∈ registeredCommands) :
    d = 10000000 ∨ d = -10000000 := by
  simp [registeredCommands] at h
  tauto

/-- C10 witness at the Seek Forward command. -/
theorem c10_seek_delta_fixed_witness :
    (10000000 : ℤ) = 10000000 ∨ (10000000 : ℤ) = -10000000 :=
  c10_seek_delta_fixed 10000000 (by decide)
